import Mathlib

/-!
Verification of the RayforceDB WASM binding layer (`src/README.md`, the C
entry-point file `main.c` embedded in the repository documentation).

The C code is shallowly embedded: handles (`obj_p`, possibly NULL) become
`Option Obj`; the tagged object header (`type`, `len`, refcount, payload)
becomes the `Obj` structure; machine integers (`i8_t` type tags, `i64_t`
lengths and counts) become `Int` (all arithmetic in the verified paths stays
far from the 64-bit overflow boundary); C string results become `String`.

Constants and macros that live in the external RayforceDB engine headers
(not in this repository) are modelled from the spec where needed and marked
as such in their doc comments.
-/

namespace Rayforce

/-! ## Type codes (src/README.md type table and TYPE_CODE_* exports) -/

def TYPE_LIST : Int := 0
def TYPE_B8 : Int := 1
def TYPE_U8 : Int := 2
def TYPE_I16 : Int := 3
def TYPE_I32 : Int := 4
def TYPE_I64 : Int := 5
def TYPE_SYMBOL : Int := 6
def TYPE_DATE : Int := 7
def TYPE_TIME : Int := 8
def TYPE_TIMESTAMP : Int := 9
def TYPE_F64 : Int := 10
def TYPE_GUID : Int := 11
def TYPE_C8 : Int := 12
def TYPE_TABLE : Int := 98
def TYPE_DICT : Int := 99

/-- Modelled from the spec: the NULL kind tag `TYPE_NULL` comes from the
external engine headers; its numeric value is not in this repository and
no claim depends on it, only on its identity. It is chosen distinct from
every documented code. -/
def TYPE_NULL : Int := 101

/-- Modelled from the spec: the ERROR kind tag `TYPE_ERR` comes from the
external engine headers; its numeric value is not in this repository and
no claim depends on it, only on its identity. -/
def TYPE_ERR : Int := 102

/-- Modelled from the spec: the user-error code `EC_USER` comes from the
external engine headers; only its identity matters here. -/
def EC_USER : Int := 1

/-- `sizeof(obj_p)`: the build targets wasm32 (Emscripten), where an object
handle is a 4-byte pointer. -/
def SIZEOF_OBJ_P : Int := 4

/-! ## The tagged object header

`Obj` models the native object header as seen through the boundary:
`type` is the signed `i8_t` kind tag, `len` the `i64_t` element count,
`rc` the reference count, `data` the flat payload buffer (element values
modelled as integers; for F64 vectors these stand for the 64-bit patterns,
no floating-point arithmetic is performed anywhere in the verified code),
and, for ERROR objects, `errCode` the numeric error code and `errMsg` the
inline message stored immediately after the header. -/

structure Obj where
  type : Int
  len : Int
  rc : Nat
  data : List Int
  errCode : Int
  errMsg : String
  deriving DecidableEq

/-- Modelled from the spec: the engine macro `IS_ATOM` — atoms carry the
negated kind code (spec section 3: arity is a sign bit, atom = −kind). -/
def IS_ATOM (o : Obj) : Bool := o.type < 0

/-- Modelled from the spec: the engine macro `IS_VECTOR` — vectors carry
the nonnegative kind code (spec section 3: vector = +kind). -/
def IS_VECTOR (o : Obj) : Bool := 0 ≤ o.type

/-- Modelled from the spec: the engine macro `IS_ERR` — an Error is an
object of kind ERROR. -/
def IS_ERR (o : Obj) : Bool := o.type = TYPE_ERR

/-- Modelled from the spec: the engine accessor `err_code` reads the numeric
code from an Error object's payload (spec section 3: Error payload is a
numeric code plus, for user errors, an inline message). -/
def err_code (o : Obj) : Int := o.errCode

/-- Modelled from the spec: the engine's static canonical-name table
`err_name` for built-in error codes. The exact strings live in the external
engine; the model keeps the map injective and never empty, which is all the
claims use. -/
def err_name (code : Int) : String := "error:" ++ toString code

/-! ## Object introspection (src/README.md, get_obj_type .. get_obj_rc) -/

/-- `get_obj_type`: NULL handle reports the NULL kind, otherwise the tag. -/
def get_obj_type (obj : Option Obj) : Int :=
  match obj with
  | none => TYPE_NULL
  | some o => o.type

/-- `get_obj_len`: 0 for NULL, 1 for atoms, else the stored length. -/
def get_obj_len (obj : Option Obj) : Int :=
  match obj with
  | none => 0
  | some o => if IS_ATOM o then 1 else o.len

/-- `is_obj_atom`: false for NULL, else the IS_ATOM test. -/
def is_obj_atom (obj : Option Obj) : Bool :=
  match obj with
  | none => false
  | some o => IS_ATOM o

/-- `is_obj_vector`: false for NULL, else the IS_VECTOR test. -/
def is_obj_vector (obj : Option Obj) : Bool :=
  match obj with
  | none => false
  | some o => IS_VECTOR o

/-- `is_obj_error`: false for NULL, else the IS_ERR test. -/
def is_obj_error (obj : Option Obj) : Bool :=
  match obj with
  | none => false
  | some o => IS_ERR o

/-- `get_obj_rc`: 0 for NULL, else the reference count (`rc_obj`). -/
def get_obj_rc (obj : Option Obj) : Nat :=
  match obj with
  | none => 0
  | some o => o.rc

/-- `get_error_message`: fixed fallback for NULL / non-error handles; for
user errors the inline message when the length is positive and the fixed
out-of-memory string otherwise; for built-in codes the canonical name. -/
def get_error_message (err : Option Obj) : String :=
  match err with
  | none => "Unknown error"
  | some o =>
    if ¬ IS_ERR o then "Unknown error"
    else if err_code o = EC_USER then
      if 0 < o.len then o.errMsg else "Out of memory"
    else err_name (err_code o)

/-! ## Zero-copy memory bridge (src/README.md, get_element_size and
get_data_byte_size) -/

/-- `get_element_size`: the C switch on `type < 0 ? -type : type` (the
`i8_t` argument is promoted to `int` before negation, so the absolute
value is exact). -/
def get_element_size (type : Int) : Int :=
  let a := if type < 0 then -type else type
  if a = TYPE_B8 ∨ a = TYPE_U8 ∨ a = TYPE_C8 then 1
  else if a = TYPE_I16 then 2
  else if a = TYPE_I32 ∨ a = TYPE_DATE ∨ a = TYPE_TIME then 4
  else if a = TYPE_I64 ∨ a = TYPE_F64 ∨ a = TYPE_SYMBOL ∨ a = TYPE_TIMESTAMP then 8
  else if a = TYPE_GUID then 16
  else if a = TYPE_LIST then SIZEOF_OBJ_P
  else 0

/-- `get_data_byte_size`: 0 for NULL handles and atoms, else
`obj->len * get_element_size(obj->type)`. -/
def get_data_byte_size (obj : Option Obj) : Int :=
  match obj with
  | none => 0
  | some o => if IS_ATOM o then 0 else o.len * get_element_size o.type

/-! ## Bulk vector fill (src/README.md, fill_i64_vec / fill_i32_vec /
fill_f64_vec)

Each C function either returns without touching memory (NULL object, NULL
buffer, or kind mismatch) or performs
`memcpy(storage, data, copy_len * elemsize)` with
`copy_len = len < obj->len ? len : obj->len`. The embedding returns the
object with its storage after the call: the first `copy_len` elements come
from the external buffer, the rest of the storage is untouched. -/

def fill_i64_vec (obj : Option Obj) (data : Option (List Int)) (len : Int) :
    Option Obj :=
  match obj, data with
  | some o, some d =>
    if o.type ≠ TYPE_I64 then some o
    else
      let copy_len : Int := if len < o.len then len else o.len
      some { o with data := d.take copy_len.toNat ++ o.data.drop copy_len.toNat }
  | o, _ => o

def fill_i32_vec (obj : Option Obj) (data : Option (List Int)) (len : Int) :
    Option Obj :=
  match obj, data with
  | some o, some d =>
    if o.type ≠ TYPE_I32 then some o
    else
      let copy_len : Int := if len < o.len then len else o.len
      some { o with data := d.take copy_len.toNat ++ o.data.drop copy_len.toNat }
  | o, _ => o

def fill_f64_vec (obj : Option Obj) (data : Option (List Int)) (len : Int) :
    Option Obj :=
  match obj, data with
  | some o, some d =>
    if o.type ≠ TYPE_F64 then some o
    else
      let copy_len : Int := if len < o.len then len else o.len
      some { o with data := d.take copy_len.toNat ++ o.data.drop copy_len.toNat }
  | o, _ => o

/-! ## Evaluation bridge (src/README.md, eval_cmd / get_cmd_counter /
reset_cmd_counter)

The static `i64_t __CMD_COUNTER = 0` is threaded explicitly. `eval_cmd`
returns the source name it passes to the evaluator (none when `cmd` is
NULL and the call returns early) together with the new counter value. -/

def CMD_COUNTER_INIT : Int := 0

def eval_cmd (cmd : Option String) (name : Option String) (counter : Int) :
    Option String × Int :=
  match cmd with
  | none => (none, counter)
  | some _ =>
    match name with
    | some s =>
      if s ≠ "" then (some s, counter)
      else (some ("cmd:" ++ toString (counter + 1)), counter + 1)
    | none => (some ("cmd:" ++ toString (counter + 1)), counter + 1)

def get_cmd_counter (counter : Int) : Int := counter

def reset_cmd_counter : Int := 0

/-! ## CSV ingestion (src/README.md, read_csv)

The raw byte buffer is a `List Char` (the C caller passes a pointer and a
byte length; the list is exactly those `len` bytes). `read_csv` mirrors the
C control flow: NULL / empty input checks, the newline scan, header
splitting on the separator with a trailing carriage-return trim on the
last field, the all-CHAR type array, column pre-sizing to
`total_lines - 1` data rows, and delegation to the engine's row parser. -/

/-- A parsed CSV column: the declared parse type of the column (the
`type_arr` entry the C code hands to the row parser — always CHAR here)
together with its cell texts. The physical pre-sized container the C code
allocates per column is a generic LIST of `total_lines - 1` cells that the
row parser fills in place according to the declared type. -/
structure CsvCol where
  ctype : Int
  cells : List String
  deriving DecidableEq

/-- A parsed CSV table: the interned column-name symbols (modelled by their
text) and the columns. -/
structure CsvTable where
  names : List String
  cols : List CsvCol
  deriving DecidableEq

/-- Splitting a buffer at a separator: the C code iterates
`memchr`/advance exactly `1 + (count of separators)` times, which yields
the list of fields between separators (empty fields included). -/
def splitSep (c : Char) : List Char → List (List Char)
  | [] => [[]]
  | x :: xs =>
    if x = c then [] :: splitSep c xs
    else
      match splitSep c xs with
      | [] => [[x]]
      | f :: rest => (x :: f) :: rest

/-- The C check on the last header field: if its final byte is a carriage
return, drop it (`prev[remaining - 1] == '\x0d'`). -/
def trimCr (f : List Char) : List Char :=
  if f.getLast? = some '\r' then f.dropLast else f

/-- Apply the carriage-return trim to the last field only, as the C header
loop does in its final iteration. -/
def trimLastCr : List (List Char) → List (List Char)
  | [] => []
  | [f] => [trimCr f]
  | f :: g :: rest => f :: trimLastCr (g :: rest)

/-- The newline scan of `read_csv`: count `'\n'` bytes, and count the
trailing partial line too when the buffer does not end in `'\n'`
(`len > 0 && buf[len-1] != '\n'`). -/
def count_lines (buf : List Char) : Int :=
  (buf.count '\n' : Int) +
    (if 0 < buf.length ∧ buf.getLast? ≠ some '\n' then 1 else 0)

/-- The header line: everything before the first `'\n'`, or the whole
buffer when there is none (`memchr(buf, '\n', len)`). -/
def csv_header (buf : List Char) : List Char := buf.takeWhile (· ≠ '\n')

/-- The data region: everything after the first `'\n'`, or NULL (none)
when the buffer has no newline — matching `line = pos == NULL ? NULL :
pos + 1`. -/
def csv_rest (buf : List Char) : Option (List Char) :=
  if '\n' ∈ buf then some ((buf.dropWhile (· ≠ '\n')).tail) else none

/-- Modelled from the spec: `io_read_csv`, the row-parsing primitive of the
external engine (declared in `io.h`, not in this repository). Per spec
section 4.6 step 8 it parses each of the `lines` data rows and fills the
pre-sized columns in place: cell `r` of column `i` receives the text of
field `i` of data row `r`, and each column carries its declared parse type
from `type_arr`. -/
def io_read_csv (type_arr : List Int) (l : Nat) (line : List Char)
    (lines : Nat) (s : Char) : List CsvCol :=
  let rows := splitSep '\n' line
  (List.range l).map (fun i =>
    { ctype := type_arr.getD i TYPE_C8,
      cells := (List.range lines).map
        (fun r => String.mk ((splitSep s (rows.getD r [])).getD i [])) })

/-- `read_csv` (value semantics; the allocation/release discipline of its
error paths is modelled separately by `read_csv_heap`). This pure model
assumes every allocation succeeds and the row parser reports no error,
which is the path on which the C function produces a table. -/
def read_csv (content : Option (List Char)) : Except String CsvTable :=
  match content with
  | none => Except.error "CSV content is NULL"
  | some buf =>
    if (buf.length : Int) ≤ 0 then Except.error "CSV length is zero or negative"
    else
      let lines := count_lines buf
      if lines = 0 then Except.error "CSV has no lines"
      else
        let header := csv_header buf
        let l : Nat := 1 + header.count ','
        let names := (trimLastCr (splitSep ',' header)).map (fun f => String.mk f)
        let type_arr := List.replicate l TYPE_C8
        let dlines : Int := if lines - 1 < 0 then 0 else lines - 1
        let cols0 := (List.range l).map (fun i =>
          ({ ctype := type_arr.getD i TYPE_C8,
             cells := List.replicate dlines.toNat "" } : CsvCol))
        let cols :=
          match csv_rest buf with
          | some dataPart =>
            if 0 < dlines then io_read_csv type_arr l dataPart dlines.toNat ','
            else cols0
          | none => cols0
        Except.ok { names := names, cols := cols }

/-! ## Allocation discipline of read_csv (src/README.md, read_csv error
paths)

To verify the release discipline of the error paths, `read_csv_heap`
re-traces the same control flow with every allocation and release
instrumented against an abstract heap. Each `malloc`/constructor call
(`SYMBOL(l)`, `malloc(type_arr)`, `LIST(l)`, each `LIST(lines)` column,
`table(...)`) draws a fresh id from an oracle `ok` deciding which
allocations succeed; `free`/`drop_obj` erase ids from the live multiset.
`drop_obj` on the columns LIST cascades over the stored column objects
(modelled from the spec: release destroys the container and its owned
children). `io_read_csv` fills the pre-sized columns in place and is
modelled as allocation-free; the Error objects built by `err_user` are
returned to the caller (ownership transferred) and are not tracked. The
parameter `rowErr` says whether the external row parser reports an error
object. -/

structure Heap where
  next : Nat
  live : Multiset Nat
  deriving DecidableEq

/-- One allocation attempt: the oracle decides whether the allocator
returns a fresh object (NULL otherwise); either way the id counter
advances. -/
def halloc (ok : Nat → Bool) (h : Heap) : Option Nat × Heap :=
  if ok h.next then (some h.next, ⟨h.next + 1, h.next ::ₘ h.live⟩)
  else (none, ⟨h.next + 1, h.live⟩)

/-- `free` / `drop_obj` on a single object. -/
def hfree (i : Nat) (h : Heap) : Heap := ⟨h.next, h.live.erase i⟩

/-- Release a list of objects (the cascade of `drop_obj` over the column
objects stored in the columns LIST). -/
def dropAll (ids : List Nat) (h : Heap) : Heap :=
  ids.foldl (fun hh i => hfree i hh) h

/-- The column-allocation loop: `for i in 0..l-1: cols[i] = LIST(lines)`,
aborting at the first failure. Returns the ids on success, the ids
allocated so far either way (they are the children `drop_obj(cols)`
cascades over), and the heap. -/
def allocColumns (ok : Nat → Bool) : Nat → Heap → Option (List Nat) × List Nat × Heap
  | 0, h => (some [], [], h)
  | n + 1, h =>
    match halloc ok h with
    | (none, h1) => (none, [], h1)
    | (some i, h1) =>
      match allocColumns ok n h1 with
      | (none, acc, h2) => (none, i :: acc, h2)
      | (some ids, acc, h2) => (some (i :: ids), i :: acc, h2)

/-- `read_csv`, allocation-instrumented: the same checks and branch
structure as the value model, with the C cleanup sequence of each error
path reproduced literally — column-allocation failure and row-parse
failure run `free(type_arr); drop_obj(names); drop_obj(cols)` (the last
cascading over the columns), table-allocation failure runs
`drop_obj(names); drop_obj(cols)` after `type_arr` was already freed. -/
def read_csv_heap (ok : Nat → Bool) (rowErr : Bool)
    (content : Option (List Char)) (h : Heap) :
    Except String (Option Nat) × Heap :=
  match content with
  | none => (Except.error "CSV content is NULL", h)
  | some buf =>
    if (buf.length : Int) ≤ 0 then
      (Except.error "CSV length is zero or negative", h)
    else
      let lines := count_lines buf
      if lines = 0 then (Except.error "CSV has no lines", h)
      else
        match halloc ok h with
        | (none, h1) => (Except.error "Failed to allocate column names", h1)
        | (some a, h1) =>
          match halloc ok h1 with
          | (none, h2) =>
            (Except.error "Failed to allocate type array", hfree a h2)
          | (some b, h2) =>
            match halloc ok h2 with
            | (none, h3) =>
              (Except.error "Failed to allocate columns list",
                hfree a (hfree b h3))
            | (some c, h3) =>
              let l : Nat := 1 + (csv_header buf).count ','
              match allocColumns ok l h3 with
              | (none, acc, h4) =>
                (Except.error "Failed to allocate column data - file too large for memory",
                  hfree c (dropAll acc (hfree a (hfree b h4))))
              | (some ids, _, h4) =>
                let dlines : Int := if lines - 1 < 0 then 0 else lines - 1
                if (0 < dlines ∧ (csv_rest buf).isSome = true) ∧ rowErr = true then
                  (Except.error "io_read_csv reported an error object",
                    hfree c (dropAll ids (hfree a (hfree b h4))))
                else
                  match halloc ok (hfree b h4) with
                  | (none, h6) =>
                    (Except.error "Out of memory: failed to allocate table structure",
                      hfree c (dropAll ids (hfree a h6)))
                  | (some t, h6) => (Except.ok (some t), h6)

/-! ## Helper lemmas -/

/-- Splitting never yields an empty field list. -/
theorem splitSep_ne_nil (c : Char) (cs : List Char) : splitSep c cs ≠ [] := by
  induction cs with
  | nil => simp [splitSep]
  | cons x xs ih =>
    rw [splitSep]
    split_ifs with h
    · simp
    · cases hs : splitSep c xs with
      | nil => simp
      | cons f rest => simp

/-- The field count of a split is one more than the separator count — the
identity the C code relies on when it sizes the header loop by
`1 + (number of separators)`. -/
theorem splitSep_length (c : Char) (cs : List Char) :
    (splitSep c cs).length = 1 + cs.count c := by
  induction cs with
  | nil => simp [splitSep]
  | cons x xs ih =>
    rw [splitSep]
    split_ifs with h
    · subst h
      simp only [List.length_cons, ih, List.count_cons_self]
      omega
    · cases hs : splitSep c xs with
      | nil => exact absurd hs (splitSep_ne_nil c xs)
      | cons f rest =>
        rw [hs] at ih
        simp only [List.length_cons] at ih ⊢
        rw [List.count_cons_of_ne (Ne.symm h)]
        omega

/-- A nonempty buffer always scans to at least one line. -/
theorem count_lines_pos (buf : List Char) (hne : buf ≠ []) :
    1 ≤ count_lines buf := by
  rw [count_lines]
  by_cases hm : '\n' ∈ buf
  · have h1 : 0 < buf.count '\n' := List.count_pos_iff.mpr hm
    have h2 : (0 : Int) ≤
        if 0 < buf.length ∧ buf.getLast? ≠ some '\n' then 1 else 0 := by
      split_ifs <;> omega
    omega
  · have hlp : 0 < buf.length := List.length_pos.mpr hne
    have hlast : buf.getLast? ≠ some '\n' := by
      rw [List.getLast?_eq_getLast_of_ne_nil hne]
      intro hcon
      have hgl : buf.getLast hne = '\n' := Option.some.inj hcon
      exact hm (hgl ▸ List.getLast_mem hne)
    rw [if_pos ⟨hlp, hlast⟩]
    omega

/-- Indexing an all-CHAR type array always reads CHAR. -/
theorem getD_replicate_c8 : ∀ (n i : Nat),
    (List.replicate n TYPE_C8).getD i TYPE_C8 = TYPE_C8
  | 0, _ => rfl
  | _ + 1, 0 => rfl
  | n + 1, i + 1 => getD_replicate_c8 n i

/-- The clamp `lines--; if (lines < 0) lines = 0;` agrees with `Int.toNat`
of the unclamped value. -/
theorem clamp_toNat (x : Int) : (if x < 0 then 0 else x).toNat = x.toNat := by
  split_ifs <;> omega

/-- Releasing a list of objects erases exactly those ids from the live
multiset. -/
theorem dropAll_live (ids : List Nat) (h : Heap) :
    (dropAll ids h).live = ids.foldl (fun m i => m.erase i) h.live := by
  induction ids generalizing h with
  | nil => rfl
  | cons a tl ih =>
    rw [dropAll, List.foldl_cons, List.foldl_cons, ← dropAll]
    exact ih (hfree a h)

/-- Erasing every element of a list from a multiset that contains it on
top of a remainder recovers exactly the remainder. -/
theorem foldl_erase_cancel (ids : List Nat) (rest : Multiset Nat) :
    List.foldl (fun m i => m.erase i) ((↑ids : Multiset Nat) + rest) ids = rest := by
  induction ids generalizing rest with
  | nil => simp
  | cons a tl ih =>
    rw [List.foldl_cons]
    have he : ((↑(a :: tl) : Multiset Nat) + rest).erase a = ↑tl + rest := by
      rw [← Multiset.cons_coe, Multiset.cons_add, Multiset.erase_cons_head]
    rw [he]
    exact ih rest

/-- The column-allocation loop adds exactly its accumulated ids to the
heap, and on success the returned id list is that accumulator. -/
theorem allocColumns_spec (ok : Nat → Bool) : ∀ (n : Nat) (h : Heap),
    ((allocColumns ok n h).2.2.live = ↑(allocColumns ok n h).2.1 + h.live) ∧
    (∀ ids, (allocColumns ok n h).1 = some ids → (allocColumns ok n h).2.1 = ids) := by
  intro n
  induction n with
  | zero =>
    intro h
    refine ⟨by simp [allocColumns], ?_⟩
    intro ids hid
    simp only [allocColumns, Option.some.injEq] at hid
    simp only [allocColumns]
    exact hid
  | succ n ih =>
    intro h
    by_cases hk : ok h.next = true
    · rcases hrec : allocColumns ok n ⟨h.next + 1, h.next ::ₘ h.live⟩ with ⟨res, acc, h2⟩
      obtain ⟨ih1, ih2⟩ := ih ⟨h.next + 1, h.next ::ₘ h.live⟩
      rw [hrec] at ih1 ih2
      have ih1h : h2.live = ↑acc + (h.next ::ₘ h.live) := by simpa using ih1
      simp only [allocColumns, halloc, hk, if_true, hrec]
      cases res with
      | none =>
        refine ⟨?_, ?_⟩
        · dsimp only
          rw [ih1h, Multiset.add_cons, ← Multiset.cons_coe, Multiset.cons_add]
        · intro ids hid
          simp at hid
      | some ids0 =>
        have hacc : acc = ids0 := by simpa using ih2 ids0 rfl
        subst hacc
        refine ⟨?_, ?_⟩
        · dsimp only
          rw [ih1h, Multiset.add_cons, ← Multiset.cons_coe, Multiset.cons_add]
        · intro ids hid
          dsimp only at hid ⊢
          simp only [Option.some.injEq] at hid
          exact hid
    · simp [allocColumns, halloc, hk]

/-- The shared cleanup chain of the read_csv error paths: with names,
type array and columns list allocated at ids `x`, `x+1`, `x+2` and the
column ids `acc` on top, erasing the type array, the names, every column
and the columns list restores the original live multiset. -/
theorem cleanup_cancel (acc : List Nat) (m : Multiset Nat) (x : Nat) :
    (List.foldl (fun mm i => mm.erase i)
        ((((↑acc : Multiset Nat) + ((x + 2) ::ₘ (x + 1) ::ₘ x ::ₘ m)).erase
              (x + 1)).erase x) acc).erase (x + 2) = m := by
  have e1 : ((↑acc : Multiset Nat) + ((x + 2) ::ₘ (x + 1) ::ₘ x ::ₘ m)).erase (x + 1) =
      ↑acc + ((x + 2) ::ₘ x ::ₘ m) := by
    rw [Multiset.erase_add_right_pos _ (by simp)]
    congr 1
    rw [Multiset.erase_cons_tail _ (by omega), Multiset.erase_cons_head]
  have e2 : ((↑acc : Multiset Nat) + ((x + 2) ::ₘ x ::ₘ m)).erase x =
      ↑acc + ((x + 2) ::ₘ m) := by
    rw [Multiset.erase_add_right_pos _ (by simp)]
    congr 1
    rw [Multiset.erase_cons_tail _ (by omega), Multiset.erase_cons_head]
  rw [e1, e2, foldl_erase_cancel acc ((x + 2) ::ₘ m), Multiset.erase_cons_head]

/-- The canonical-name table never yields an empty string. -/
theorem err_name_ne_empty (code : Int) : err_name code ≠ "" := by
  intro h
  have h2 := congrArg String.length h
  rw [err_name, String.length_append] at h2
  simp at h2
  exact absurd h2.1 (by decide)

end Rayforce

namespace Rayforce

/-! ## Claim theorems -/

/-- C5: every introspection accessor applied to a null handle returns a safe
sentinel instead of faulting: `get_obj_type` returns the NULL kind,
`get_obj_len` returns 0, `get_obj_rc` returns 0, and `is_obj_atom`,
`is_obj_vector`, `is_obj_error` each return false. -/
theorem null_handle_sentinels :
    get_obj_type none = TYPE_NULL ∧ get_obj_len none = 0 ∧
    get_obj_rc none = 0 ∧ is_obj_atom none = false ∧
    is_obj_vector none = false ∧ is_obj_error none = false :=
  ⟨rfl, rfl, rfl, rfl, rfl, rfl⟩

/-- C3: `get_element_size` is the fixed lookup (1 for BOOL/BYTE/CHAR, 2 for
I16, 4 for I32/DATE/TIME, 8 for I64/SYMBOL/F64/TIMESTAMP, 16 for GUID,
handle-size for LIST, 0 for every other kind code), and the sign of the
kind code is ignored: `get_element_size k = get_element_size (-k)`. -/
theorem element_size_lookup :
    get_element_size TYPE_B8 = 1 ∧ get_element_size TYPE_U8 = 1 ∧
    get_element_size TYPE_C8 = 1 ∧ get_element_size TYPE_I16 = 2 ∧
    get_element_size TYPE_I32 = 4 ∧ get_element_size TYPE_DATE = 4 ∧
    get_element_size TYPE_TIME = 4 ∧ get_element_size TYPE_I64 = 8 ∧
    get_element_size TYPE_SYMBOL = 8 ∧ get_element_size TYPE_F64 = 8 ∧
    get_element_size TYPE_TIMESTAMP = 8 ∧ get_element_size TYPE_GUID = 16 ∧
    get_element_size TYPE_LIST = SIZEOF_OBJ_P ∧
    (∀ k : Int, 12 < k ∨ k < -12 → get_element_size k = 0) ∧
    (∀ k : Int, get_element_size k = get_element_size (-k)) := by
  refine ⟨by decide, by decide, by decide, by decide, by decide, by decide,
    by decide, by decide, by decide, by decide, by decide, by decide,
    by decide, ?_, ?_⟩
  · intro k hk
    rw [get_element_size]
    simp only [TYPE_B8, TYPE_U8, TYPE_C8, TYPE_I16, TYPE_I32, TYPE_DATE,
      TYPE_TIME, TYPE_I64, TYPE_F64, TYPE_SYMBOL, TYPE_TIMESTAMP, TYPE_GUID,
      TYPE_LIST, SIZEOF_OBJ_P]
    split_ifs <;> omega
  · intro k
    rw [get_element_size, get_element_size]
    have habs : (if k < 0 then -k else k) = (if -k < 0 then -(-k) else -k) := by
      split_ifs <;> omega
    rw [habs]

/-- Witness for C3: a concrete unknown code evaluates to 0 through the
theorem. -/
theorem element_size_lookup_witness : get_element_size 50 = 0 :=
  element_size_lookup.2.2.2.2.2.2.2.2.2.2.2.2.2.1 50 (by decide)

/-- C4: `get_data_byte_size` returns 0 for a null handle and for every atom,
and for every vector it returns `length * element_size(type)`. -/
theorem data_byte_size_spec :
    get_data_byte_size none = 0 ∧
    (∀ o : Obj, IS_ATOM o = true → get_data_byte_size (some o) = 0) ∧
    (∀ o : Obj, IS_VECTOR o = true →
      get_data_byte_size (some o) =
        get_obj_len (some o) * get_element_size (get_obj_type (some o))) := by
  refine ⟨rfl, ?_, ?_⟩
  · intro o h
    simp [get_data_byte_size, h]
  · intro o h
    have ha : IS_ATOM o = false := by
      simp only [IS_VECTOR, decide_eq_true_eq] at h
      simp only [IS_ATOM, decide_eq_false_iff_not, not_lt]
      exact h
    simp [get_data_byte_size, get_obj_len, get_obj_type, ha]

/-- Witness for C4: a concrete I64 atom yields 0, a concrete I64 vector of
length 3 yields `3 * element_size(I64)`. -/
theorem data_byte_size_spec_witness :
    get_data_byte_size (some ⟨-5, 1, 1, [7], 0, ""⟩) = 0 ∧
    get_data_byte_size (some ⟨5, 3, 1, [1, 2, 3], 0, ""⟩) =
      get_obj_len (some ⟨5, 3, 1, [1, 2, 3], 0, ""⟩) *
        get_element_size (get_obj_type (some ⟨5, 3, 1, [1, 2, 3], 0, ""⟩)) :=
  ⟨data_byte_size_spec.2.1 _ (by decide), data_byte_size_spec.2.2 _ (by decide)⟩

/-- C6: with an absent or empty source name, `eval_cmd` auto-generates
"cmd:" followed by the incremented counter, so three successive calls from
the initial counter use "cmd:1", "cmd:2", "cmd:3"; `get_cmd_counter`
returns the current counter; `reset_cmd_counter` makes the next
auto-generated name "cmd:1" again. -/
theorem cmd_counter_autoname :
    eval_cmd (some "(+ 1 2)") none CMD_COUNTER_INIT = (some "cmd:1", 1) ∧
    eval_cmd (some "(+ 3 4)") (some "") 1 = (some "cmd:2", 2) ∧
    eval_cmd (some "(+ 5 6)") none 2 = (some "cmd:3", 3) ∧
    get_cmd_counter 3 = 3 ∧
    eval_cmd (some "(+ 7 8)") none reset_cmd_counter = (some "cmd:1", 1) := by
  refine ⟨by decide, by decide, by decide, rfl, by decide⟩

/-- C7: `get_error_message` returns the inline message for a user error with
a positive payload length, the fixed "Out of memory" string for a user error
without one, the canonical code name for any other error code, and the fixed
"Unknown error" string for a null handle or a non-error object; it never
returns an empty string (the inline message of a well-formed user error has
exactly `len` characters). -/
theorem error_message_spec :
    (∀ o : Obj, IS_ERR o = true → err_code o = EC_USER → 0 < o.len →
      get_error_message (some o) = o.errMsg) ∧
    (∀ o : Obj, IS_ERR o = true → err_code o = EC_USER → o.len ≤ 0 →
      get_error_message (some o) = "Out of memory") ∧
    (∀ o : Obj, IS_ERR o = true → err_code o ≠ EC_USER →
      get_error_message (some o) = err_name (err_code o)) ∧
    get_error_message none = "Unknown error" ∧
    (∀ o : Obj, IS_ERR o = false → get_error_message (some o) = "Unknown error") ∧
    (∀ o : Obj, o.errMsg.length = o.len.toNat →
      get_error_message (some o) ≠ "") := by
  refine ⟨?_, ?_, ?_, rfl, ?_, ?_⟩
  · intro o herr hc hlen
    simp [get_error_message, herr, hc, hlen]
  · intro o herr hc hlen
    simp [get_error_message, herr, hc, not_lt.mpr hlen]
  · intro o herr hc
    simp [get_error_message, herr, hc]
  · intro o herr
    simp [get_error_message, herr]
  · intro o hwf
    rw [get_error_message]
    split_ifs with h1 h2 h3
    · intro hc
      have hlen0 : o.errMsg.length = 0 := by rw [hc]; rfl
      rw [hwf] at hlen0
      omega
    · decide
    · exact err_name_ne_empty _
    · decide

/-- C2: each typed fill bulk-copies exactly `min(count, obj.len)` elements
from the external buffer into the object's storage and never writes beyond
`obj.len` elements (the storage keeps its length and every element past the
copied range is untouched); the call is a no-op when the handle is null,
the buffer is null, or the kind does not match. The well-formedness
hypotheses say the count is nonnegative, the storage holds `obj.len`
elements, and the external buffer holds at least `min(count, obj.len)`
elements — exactly what the C `memcpy` contract assumes. -/
theorem fill_vec_bounds :
    (∀ (o : Obj) (d : List Int) (n : Int), o.type = TYPE_I64 → 0 ≤ n →
      o.data.length = o.len.toNat → (min n o.len).toNat ≤ d.length →
      ∃ o2, fill_i64_vec (some o) (some d) n = some o2 ∧
        o2.data = d.take (min n o.len).toNat ++ o.data.drop (min n o.len).toNat ∧
        o2.data.length = o.data.length ∧ o2.type = o.type ∧ o2.len = o.len) ∧
    (∀ d n, fill_i64_vec none (some d) n = none) ∧
    (∀ (o : Obj) (n : Int), fill_i64_vec (some o) none n = some o) ∧
    (∀ (o : Obj) (d : List Int) (n : Int), o.type ≠ TYPE_I64 →
      fill_i64_vec (some o) (some d) n = some o) ∧
    (∀ (o : Obj) (d : List Int) (n : Int), o.type = TYPE_I32 → 0 ≤ n →
      o.data.length = o.len.toNat → (min n o.len).toNat ≤ d.length →
      ∃ o2, fill_i32_vec (some o) (some d) n = some o2 ∧
        o2.data = d.take (min n o.len).toNat ++ o.data.drop (min n o.len).toNat ∧
        o2.data.length = o.data.length ∧ o2.type = o.type ∧ o2.len = o.len) ∧
    (∀ d n, fill_i32_vec none (some d) n = none) ∧
    (∀ (o : Obj) (n : Int), fill_i32_vec (some o) none n = some o) ∧
    (∀ (o : Obj) (d : List Int) (n : Int), o.type ≠ TYPE_I32 →
      fill_i32_vec (some o) (some d) n = some o) ∧
    (∀ (o : Obj) (d : List Int) (n : Int), o.type = TYPE_F64 → 0 ≤ n →
      o.data.length = o.len.toNat → (min n o.len).toNat ≤ d.length →
      ∃ o2, fill_f64_vec (some o) (some d) n = some o2 ∧
        o2.data = d.take (min n o.len).toNat ++ o.data.drop (min n o.len).toNat ∧
        o2.data.length = o.data.length ∧ o2.type = o.type ∧ o2.len = o.len) ∧
    (∀ d n, fill_f64_vec none (some d) n = none) ∧
    (∀ (o : Obj) (n : Int), fill_f64_vec (some o) none n = some o) ∧
    (∀ (o : Obj) (d : List Int) (n : Int), o.type ≠ TYPE_F64 →
      fill_f64_vec (some o) (some d) n = some o) := by
  have key : ∀ (len : Int) (dataLen : Nat) (n : Int), 0 ≤ n →
      dataLen = len.toNat → (if n < len then n else len) = min n len := by
    intro len dataLen n hn hwf
    rw [min_def]
    split_ifs <;> omega
  have lenk : ∀ (o : Obj) (d : List Int) (n : Int), 0 ≤ n →
      o.data.length = o.len.toNat → (min n o.len).toNat ≤ d.length →
      (d.take (min n o.len).toNat ++ o.data.drop (min n o.len).toNat).length =
        o.data.length := by
    intro o d n hn hwf hbuf
    have hm : (min n o.len).toNat ≤ o.data.length := by
      rw [hwf]
      have : min n o.len ≤ o.len := min_le_right _ _
      omega
    simp only [List.length_append, List.length_take, List.length_drop]
    omega
  refine ⟨?_, fun _ _ => rfl, fun _ _ => rfl, ?_, ?_, fun _ _ => rfl,
    fun _ _ => rfl, ?_, ?_, fun _ _ => rfl, fun _ _ => rfl, ?_⟩
  · intro o d n ht hn hwf hbuf
    rw [fill_i64_vec]
    rw [if_neg (not_not_intro ht), key o.len o.data.length n hn hwf]
    exact ⟨_, rfl, rfl, lenk o d n hn hwf hbuf, rfl, rfl⟩
  · intro o d n ht
    rw [fill_i64_vec, if_pos ht]
  · intro o d n ht hn hwf hbuf
    rw [fill_i32_vec]
    rw [if_neg (not_not_intro ht), key o.len o.data.length n hn hwf]
    exact ⟨_, rfl, rfl, lenk o d n hn hwf hbuf, rfl, rfl⟩
  · intro o d n ht
    rw [fill_i32_vec, if_pos ht]
  · intro o d n ht hn hwf hbuf
    rw [fill_f64_vec]
    rw [if_neg (not_not_intro ht), key o.len o.data.length n hn hwf]
    exact ⟨_, rfl, rfl, lenk o d n hn hwf hbuf, rfl, rfl⟩
  · intro o d n ht
    rw [fill_f64_vec, if_pos ht]

/-- Witness for C2: filling a 2-element I64 vector from a 3-element buffer
copies exactly 2 elements; a null handle, a null buffer, and a kind
mismatch are no-ops, all through the theorem. -/
theorem fill_vec_bounds_witness :
    (∃ o2, fill_i64_vec (some ⟨5, 2, 1, [0, 0], 0, ""⟩) (some [10, 20, 30]) 3 =
        some o2 ∧
      o2.data = [10, 20, 30].take (min 3 (2 : Int)).toNat ++
        ([0, 0] : List Int).drop (min 3 (2 : Int)).toNat ∧
      o2.data.length = ([0, 0] : List Int).length ∧ o2.type = 5 ∧ o2.len = 2) ∧
    fill_i64_vec none (some [1]) 1 = none ∧
    fill_i32_vec (some ⟨4, 1, 1, [0], 0, ""⟩) none 1 = some ⟨4, 1, 1, [0], 0, ""⟩ ∧
    fill_f64_vec (some ⟨5, 1, 1, [0], 0, ""⟩) (some [1]) 1 =
      some ⟨5, 1, 1, [0], 0, ""⟩ :=
  ⟨fill_vec_bounds.1 _ _ _ (by decide) (by decide) (by decide) (by decide),
   fill_vec_bounds.2.1 _ _,
   fill_vec_bounds.2.2.2.2.2.2.1 _ _,
   fill_vec_bounds.2.2.2.2.2.2.2.2.2.2.2 _ _ _ (by decide)⟩

/-- Witness for C7: a concrete user error with inline message "boom", a
concrete message-less user error, a concrete built-in error code, and a
concrete non-error object, all through the theorem. -/
theorem error_message_spec_witness :
    get_error_message (some ⟨TYPE_ERR, 4, 1, [], EC_USER, "boom"⟩) = "boom" ∧
    get_error_message (some ⟨TYPE_ERR, 0, 1, [], EC_USER, ""⟩) = "Out of memory" ∧
    get_error_message (some ⟨TYPE_ERR, 0, 1, [], 7, ""⟩) = err_name 7 ∧
    get_error_message (some ⟨TYPE_I64, 1, 1, [3], 0, ""⟩) = "Unknown error" ∧
    get_error_message (some ⟨TYPE_ERR, 4, 1, [], EC_USER, "boom"⟩) ≠ "" :=
  ⟨error_message_spec.1 _ (by decide) (by decide) (by decide),
   error_message_spec.2.1 _ (by decide) (by decide) (by decide),
   error_message_spec.2.2.1 _ (by decide) (by decide),
   error_message_spec.2.2.2.2.1 _ (by decide),
   error_message_spec.2.2.2.2.2 _ (by decide)⟩

/-- C10: for every non-empty buffer the newline scan counts at least one
line (a buffer not ending in a newline has its trailing partial line
counted), so the "CSV has no lines" branch is unreachable and `read_csv`
never returns that error on any input. -/
theorem read_csv_no_lines_unreachable :
    (∀ buf : List Char, buf ≠ [] → 1 ≤ count_lines buf) ∧
    (∀ content : Option (List Char),
      read_csv content ≠ Except.error "CSV has no lines") := by
  refine ⟨fun buf h => count_lines_pos buf h, ?_⟩
  intro content h
  cases content with
  | none =>
    exact absurd (Except.error.inj h) (by decide)
  | some buf =>
    by_cases hl : (buf.length : Int) ≤ 0
    · simp only [read_csv] at h
      rw [if_pos hl] at h
      exact absurd (Except.error.inj h) (by decide)
    · have hne : buf ≠ [] := by
        intro he
        subst he
        simp at hl
      have hcl : ¬ count_lines buf = 0 := by
        have := count_lines_pos buf hne
        omega
      simp only [read_csv] at h
      rw [if_neg hl, if_neg hcl] at h
      exact Except.noConfusion h

/-- Witness for C10: the newline-free buffer "a,b" still counts one line,
and parsing it does not produce the "CSV has no lines" error, through the
theorem. -/
theorem read_csv_no_lines_unreachable_witness :
    1 ≤ count_lines ("a,b".toList) ∧
    read_csv (some ("a,b".toList)) ≠ Except.error "CSV has no lines" :=
  ⟨read_csv_no_lines_unreachable.1 _ (by decide),
   read_csv_no_lines_unreachable.2 _⟩

/-- C9: a CSV consisting of a single line (the header, with or without its
terminating newline) skips row parsing entirely: the result is a table
with one column per header field and 0 rows; in particular "a,b\x0a"
parses to a table with columns a, b and no cells. -/
theorem read_csv_header_only :
    (∀ buf : List Char, count_lines buf = 1 →
      ∃ t : CsvTable, read_csv (some buf) = Except.ok t ∧
        t.cols.length = (splitSep ',' (csv_header buf)).length ∧
        ∀ c ∈ t.cols, c.cells = []) ∧
    read_csv (some ("a,b\n".toList)) =
      Except.ok { names := ["a", "b"],
                  cols := [⟨TYPE_C8, []⟩, ⟨TYPE_C8, []⟩] } := by
  constructor
  · intro buf h1
    have hne : buf ≠ [] := by
      intro he
      subst he
      simp [count_lines] at h1
    have hl : ¬ ((buf.length : Int) ≤ 0) := by
      have := List.length_pos.mpr hne
      omega
    have hcl : ¬ count_lines buf = 0 := by omega
    simp only [read_csv]
    rw [if_neg hl, if_neg hcl, h1]
    refine ⟨_, rfl, ?_, ?_⟩
    · rw [splitSep_length]
      split
      · rw [if_neg (by norm_num)]
        simp
      · simp
    · intro c hc
      split at hc
      · rw [if_neg (by norm_num)] at hc
        simp only [List.mem_map, List.mem_range] at hc
        obtain ⟨i, -, rfl⟩ := hc
        norm_num
      · simp only [List.mem_map, List.mem_range] at hc
        obtain ⟨i, -, rfl⟩ := hc
        norm_num
  · rfl

/-- Witness for C9: the header-only input "a,b\x0a" through the general
part of the theorem. -/
theorem read_csv_header_only_witness :
    ∃ t : CsvTable, read_csv (some ("a,b\n".toList)) = Except.ok t ∧
      t.cols.length = (splitSep ',' (csv_header ("a,b\n".toList))).length ∧
      ∀ c ∈ t.cols, c.cells = [] :=
  read_csv_header_only.1 _ (by rfl)

/-- C1: whenever `read_csv` returns a table, the table has exactly one
column per header field, every column carries the CHAR/string parse type,
and every column holds exactly `total_lines - 1` cells (data rows only,
header excluded); in particular "a,b\x0a1,2\x0a3,4\x0a" parses to the
table with columns a, b of CHAR kind and 2 rows holding the texts
"1","2" (first data row) and "3","4" (second data row) column-wise. -/
theorem csv_header_columns_spec :
    (∀ (buf : List Char) (t : CsvTable), read_csv (some buf) = Except.ok t →
      t.cols.length = (splitSep ',' (csv_header buf)).length ∧
      ∀ c ∈ t.cols, c.ctype = TYPE_C8 ∧
        c.cells.length = (count_lines buf - 1).toNat) ∧
    read_csv (some ("a,b\n1,2\n3,4\n".toList)) =
      Except.ok { names := ["a", "b"],
                  cols := [⟨TYPE_C8, ["1", "3"]⟩, ⟨TYPE_C8, ["2", "4"]⟩] } := by
  constructor
  · intro buf t h
    by_cases hl : (buf.length : Int) ≤ 0
    · simp only [read_csv] at h
      rw [if_pos hl] at h
      exact Except.noConfusion h
    by_cases hcl : count_lines buf = 0
    · simp only [read_csv] at h
      rw [if_neg hl, if_pos hcl] at h
      exact Except.noConfusion h
    simp only [read_csv] at h
    rw [if_neg hl, if_neg hcl] at h
    obtain rfl := (Except.ok.inj h).symm
    constructor
    · rw [splitSep_length]
      by_cases hd : count_lines buf - 1 < 0
      · rw [show (if count_lines buf - 1 < 0 then (0 : Int)
            else count_lines buf - 1) = 0 from if_pos hd]
        split <;> simp [io_read_csv]
      · rw [show (if count_lines buf - 1 < 0 then (0 : Int)
            else count_lines buf - 1) = count_lines buf - 1 from if_neg hd]
        split
        · split_ifs <;> simp [io_read_csv]
        · simp
    · intro c hc
      by_cases hd : count_lines buf - 1 < 0
      · rw [show (if count_lines buf - 1 < 0 then (0 : Int)
            else count_lines buf - 1) = 0 from if_pos hd] at hc
        split at hc
        · rw [if_neg (lt_irrefl 0)] at hc
          simp only [List.mem_map, List.mem_range] at hc
          obtain ⟨i, -, rfl⟩ := hc
          refine ⟨getD_replicate_c8 _ _, ?_⟩
          simp only [List.length_replicate]
          omega
        · simp only [List.mem_map, List.mem_range] at hc
          obtain ⟨i, -, rfl⟩ := hc
          refine ⟨getD_replicate_c8 _ _, ?_⟩
          simp only [List.length_replicate]
          omega
      · rw [show (if count_lines buf - 1 < 0 then (0 : Int)
            else count_lines buf - 1) = count_lines buf - 1 from if_neg hd] at hc
        split at hc
        · split at hc
          · simp only [io_read_csv, List.mem_map, List.mem_range] at hc
            obtain ⟨i, -, rfl⟩ := hc
            exact ⟨getD_replicate_c8 _ _, by simp⟩
          · simp only [List.mem_map, List.mem_range] at hc
            obtain ⟨i, -, rfl⟩ := hc
            exact ⟨getD_replicate_c8 _ _, by simp⟩
        · simp only [List.mem_map, List.mem_range] at hc
          obtain ⟨i, -, rfl⟩ := hc
          exact ⟨getD_replicate_c8 _ _, by simp⟩
  · rfl

/-- Witness for C1: the universal part of the theorem applied to the
concrete round-trip input, its `read_csv` hypothesis discharged by
evaluation. -/
theorem csv_header_columns_spec_witness :
    ({ names := ["a", "b"],
       cols := [⟨TYPE_C8, ["1", "3"]⟩, ⟨TYPE_C8, ["2", "4"]⟩] } :
        CsvTable).cols.length =
      (splitSep ',' (csv_header ("a,b\n1,2\n3,4\n".toList))).length ∧
    ∀ c ∈ ({ names := ["a", "b"],
             cols := [⟨TYPE_C8, ["1", "3"]⟩, ⟨TYPE_C8, ["2", "4"]⟩] } :
              CsvTable).cols,
      c.ctype = TYPE_C8 ∧
      c.cells.length = (count_lines ("a,b\n1,2\n3,4\n".toList) - 1).toNat :=
  csv_header_columns_spec.1 _ _ (by rfl)

/-- C8: on every error path of `read_csv`, all partially-built objects are
released before the Error is returned: for every allocation oracle, every
row-parse outcome, every input and every starting heap, an error result
leaves the live-object multiset exactly as it was before the call — no
half-built table and no leaked partial object. -/
theorem read_csv_error_paths_release :
    ∀ (ok : Nat → Bool) (rowErr : Bool) (content : Option (List Char))
      (h : Heap) (e : String),
      (read_csv_heap ok rowErr content h).1 = Except.error e →
      (read_csv_heap ok rowErr content h).2.live = h.live := by
  intro ok rowErr content h e
  cases content with
  | none => exact fun _ => rfl
  | some buf =>
    by_cases hl : (buf.length : Int) ≤ 0
    · simp only [read_csv_heap, if_pos hl]
      exact fun _ => trivial
    by_cases hcl : count_lines buf = 0
    · simp only [read_csv_heap, if_neg hl, if_pos hcl]
      exact fun _ => trivial
    simp only [read_csv_heap, if_neg hl, if_neg hcl]
    by_cases k0 : ok h.next = true
    case neg => simp [halloc, k0]
    case pos =>
      simp only [halloc, k0, if_true]
      by_cases k1 : ok (h.next + 1) = true
      case neg =>
        simp [halloc, k1, hfree, Multiset.erase_cons_head]
      case pos =>
        simp only [halloc, k1, if_true]
        by_cases k2 : ok (h.next + 2) = true
        case neg =>
          simp [halloc, k2, hfree, Multiset.erase_cons_head]
        case pos =>
          simp only [halloc, k2, if_true]
          rcases hA : allocColumns ok (1 + (csv_header buf).count ',')
              ⟨h.next + 3, (h.next + 2) ::ₘ (h.next + 1) ::ₘ h.next ::ₘ h.live⟩
            with ⟨res, acc, h4⟩
          obtain ⟨ih1, ih2⟩ := allocColumns_spec ok (1 + (csv_header buf).count ',')
            ⟨h.next + 3, (h.next + 2) ::ₘ (h.next + 1) ::ₘ h.next ::ₘ h.live⟩
          rw [hA] at ih1 ih2
          have ih1h : h4.live =
              ↑acc + ((h.next + 2) ::ₘ (h.next + 1) ::ₘ h.next ::ₘ h.live) := by
            simpa using ih1
          cases res with
          | none =>
            dsimp only
            intro _
            simp only [hfree, dropAll_live]
            rw [ih1h]
            exact cleanup_cancel acc h.live h.next
          | some ids =>
            have hacc : acc = ids := by simpa using ih2 ids rfl
            subst hacc
            dsimp only
            by_cases hrow : (0 < (if count_lines buf - 1 < 0 then (0 : Int)
                else count_lines buf - 1) ∧ (csv_rest buf).isSome = true) ∧ rowErr = true
            · rw [if_pos hrow]
              intro _
              simp only [hfree, dropAll_live]
              rw [ih1h]
              exact cleanup_cancel acc h.live h.next
            · rw [if_neg hrow]
              simp only [hfree]
              by_cases k3 : ok h4.next = true
              case pos =>
                simp only [halloc, k3, if_true]
                intro herr2
                exact absurd herr2 (by simp)
              case neg =>
                simp only [halloc, k3, if_false]
                intro _
                simp only [hfree, dropAll_live]
                rw [ih1h]
                exact cleanup_cancel acc h.live h.next

/-- Witness for C8: an oracle that fails the first column allocation on
input "a,b\x0a1,2\x0a" makes `read_csv_heap` return the column-allocation
user error, and the theorem yields an unchanged (empty) live multiset. -/
theorem read_csv_error_paths_release_witness :
    (read_csv_heap (fun n => n != 3) false (some ("a,b\n1,2\n".toList))
        ⟨0, 0⟩).2.live = (⟨0, (0 : Multiset Nat)⟩ : Heap).live :=
  read_csv_error_paths_release _ _ _ _
    "Failed to allocate column data - file too large for memory" (by rfl)

end Rayforce
